import Mathlib

/-
Shallow embedding of the nestjs-cache-mediator repository.

The embedded code:
  * `CacheFirstService.cacheFirst` (cache-first.service.ts): check cache,
    on miss get-or-add a Bull job keyed by the cache key, await its
    completion, best-effort cache the result.
  * `CacheFirstService.warmCacheForKey`: delete the cache entry, then
    run `cacheFirst`.
  * `CacheFirstProcessor.handleCacheFirstJob` (cache-first.processor.ts):
    look up the registered handler for the job type and run it.

External collaborators (the injected `ICacheDriver` and the Bull queue)
are modelled as an environment `Env` recording the outcome of each call
the service makes during one invocation; `cacheFirst` becomes a pure
function from the environment to its result together with an `Effects`
record of which external calls it performed.
-/

namespace CacheMediator

/-- The Bull job payload built by `cacheFirst` (cache-job.interface.ts). -/
structure CacheJobPayload (P : Type) where
  jobType : String
  params : P
  cacheKey : String
deriving DecidableEq, Repr

/-- The errors `cacheFirst` can surface to its caller:
`storeError` stands for a rejection of the cache driver propagated
uncaught (`get` on the hit path, `del` in `warmCacheForKey`);
`failedToSchedule` is `InternalServerErrorException('Failed to schedule cache job')`;
`jobTimedOut n` is ``InternalServerErrorException(`Job timed out after n ms`)``. -/
inductive CFError where
  | storeError : CFError
  | failedToSchedule : CFError
  | jobTimedOut : Nat → CFError
deriving DecidableEq, Repr

/-- Environment of one `cacheFirst` call: the outcome of every external
call the service can make, in source order.  `T` is the result type,
`P` the params type, `J` the Bull job handle type. -/
structure Env (T P J : Type) where
  /-- outcome of `this.cacheDriver.get(cacheKey)`; `Except.error` is a rejected promise. -/
  getResult : Except Unit (Option String)
  /-- `JSON.parse` on the cached string; `none` is a parse exception. -/
  parse : String → Option T
  /-- outcome of the first `this.cacheQueue.getJob(cacheKey)`. -/
  getJob : Option J
  /-- outcome of `this.cacheQueue.add('cacheFirstJob', payload, {jobId: cacheKey, ...})`. -/
  add : CacheJobPayload P → Except Unit J
  /-- outcome of the `getJob(cacheKey)` retry after `add` rejected. -/
  getJobRetry : Option J
  /-- outcome of `bullJob.finished()`; `Except.error` is failure or Bull timeout. -/
  finished : J → Except Unit T
  /-- `JSON.stringify` of the result. -/
  serialize : T → String
  /-- outcome of `this.cacheDriver.set(cacheKey, serialized, redisTTL)`. -/
  setResult : String → Except Unit Unit

/-- Which external calls one `cacheFirst` invocation performed. -/
structure Effects (P J : Type) where
  /-- `cacheDriver.get` was called (always the first statement). -/
  getCalled : Bool
  /-- how many times `cacheQueue.getJob` was called (0, 1 or 2). -/
  getJobCalls : Nat
  /-- payload passed to `cacheQueue.add`, if `add` was called. -/
  addPayload : Option (CacheJobPayload P)
  /-- the job whose `finished()` was awaited, if any. -/
  awaitedJob : Option J
  /-- `(serialized value, redisTTL)` passed to `cacheDriver.set`, if called. -/
  setArg : Option (String × Nat)
  /-- outcome of the `cacheDriver.set` call, if it was made. -/
  setOutcome : Option (Except Unit Unit)
deriving Repr

/-- JavaScript truthiness of `string | null`: `null` and `""` are falsy. -/
def truthy : Option String → Bool
  | none => false
  | some s => decide (s ≠ "")

variable {T P J : Type}

/-- Lines 93-100 of cache-first.service.ts: `get` then, when truthy,
`JSON.parse` inside try/catch (a parse failure falls through to the
miss path).  A `get` rejection propagates (there is no try/catch). -/
def cacheLookup (env : Env T P J) : Except Unit (Option T) :=
  match env.getResult with
  | .error e => .error e
  | .ok cached => .ok (if truthy cached then cached.bind env.parse else none)

/-- Lines 106-122: `getJob`, else `add`, on `add` rejection `getJob` again,
else throw `Failed to schedule cache job`.  Returns the acquired job,
the number of `getJob` calls, and whether `add` was called. -/
def acquire (env : Env T P J) (payload : CacheJobPayload P) :
    Except CFError J × Nat × Bool :=
  match env.getJob with
  | some j => (.ok j, 1, false)
  | none =>
    match env.add payload with
    | .ok j => (.ok j, 1, true)
    | .error _ =>
      match env.getJobRetry with
      | some j => (.ok j, 2, true)
      | none => (.error CFError.failedToSchedule, 2, true)

/-- `CacheFirstService.cacheFirst(cacheKey, redisTTL, jobTTL, jobType, params)`. -/
def cacheFirst (env : Env T P J) (cacheKey : String) (redisTTL jobTTL : Nat)
    (jobType : String) (params : P) : Except CFError T × Effects P J :=
  match cacheLookup env with
  | .error _ => (.error CFError.storeError, ⟨true, 0, none, none, none, none⟩)
  | .ok (some v) => (.ok v, ⟨true, 0, none, none, none, none⟩)
  | .ok none =>
    let payload : CacheJobPayload P := ⟨jobType, params, cacheKey⟩
    match acquire env payload with
    | (.error e, gjc, ac) =>
      (.error e, ⟨true, gjc, if ac then some payload else none, none, none, none⟩)
    | (.ok j, gjc, ac) =>
      match env.finished j with
      | .error _ =>
        (.error (CFError.jobTimedOut jobTTL),
         ⟨true, gjc, if ac then some payload else none, some j, none, none⟩)
      | .ok r =>
        (.ok r,
         ⟨true, gjc, if ac then some payload else none, some j,
          some (env.serialize r, redisTTL), some (env.setResult (env.serialize r))⟩)

/-- `CacheFirstService.warmCacheForKey`: `await this.cacheDriver.del(cacheKey)`
(uncaught, so a rejection propagates) then `cacheFirst` with the same
arguments.  The `Bool` in the output records that `del` was called. -/
def warmCacheForKey (delRes : Except Unit Unit) (env : Env T P J)
    (cacheKey : String) (redisTTL jobTTL : Nat) (jobType : String) (params : P) :
    Except CFError T × Bool × Effects P J :=
  match delRes with
  | .error _ => (.error CFError.storeError, true, ⟨false, 0, none, none, none, none⟩)
  | .ok _ =>
    let p := cacheFirst env cacheKey redisTTL jobTTL jobType params
    (p.1, true, p.2)

/-- The static handler registry (`CacheFirstService.jobHandlers`):
`registerHandler` uses `Map.set`, so the last registration for a type
wins; modelled as a list with most-recent-first lookup. -/
def Registry (P T : Type) : Type := List (String × (P → Except Unit T))

/-- `CacheFirstService.registerHandler`. -/
def registerHandler (reg : Registry P T) (jobType : String)
    (handler : P → Except Unit T) : Registry P T :=
  (jobType, handler) :: reg

/-- `CacheFirstService.getHandler`. -/
def getHandler (reg : Registry P T) (jobType : String) :
    Option (P → Except Unit T) :=
  reg.lookup jobType

/-- Outcome of running the Bull processor on a job. -/
inductive ProcOutcome (T : Type) where
  | ok : T → ProcOutcome T
  | unregistered : String → ProcOutcome T
  | handlerFailed : ProcOutcome T
deriving Repr

/-- `CacheFirstProcessor.handleCacheFirstJob`: look up the handler for the
payload's job type; if absent throw
``Error(`No handler registered for job type: ...`)``; otherwise run it,
rethrowing its failure. -/
def handleCacheFirstJob (reg : Registry P T) (payload : CacheJobPayload P) :
    ProcOutcome T :=
  match getHandler reg payload.jobType with
  | none => ProcOutcome.unregistered payload.jobType
  | some handler =>
    match handler payload.params with
    | .ok r => ProcOutcome.ok r
    | .error _ => ProcOutcome.handlerFailed

/-- Environment where the Bull queue holds no prior job, `add` creates a
job carrying its payload, and awaiting a job runs the processor on it:
the composition of `cacheFirst` with `handleCacheFirstJob` through Bull. -/
def processorEnv (reg : Registry P T) (g : Except Unit (Option String))
    (parse' : String → Option T) (serialize' : T → String)
    (setResult' : String → Except Unit Unit) : Env T P (CacheJobPayload P) :=
  ⟨g, parse', none, fun payload => .ok payload, none,
   fun j =>
     match handleCacheFirstJob reg j with
     | ProcOutcome.ok r => .ok r
     | ProcOutcome.unregistered _ => .error ()
     | ProcOutcome.handlerFailed => .error (),
   serialize', setResult'⟩

/-- Replace only the `get` outcome of an environment. -/
def withGetResult (env : Env T P J) (g : Except Unit (Option String)) :
    Env T P J :=
  ⟨g, env.parse, env.getJob, env.add, env.getJobRetry, env.finished,
   env.serialize, env.setResult⟩

/-
Single-flight model (claim C1).  N callers have all observed a cache
miss for the same key and race through the miss path of `cacheFirst`
(lines 106-122): getJob, else add (atomic get-or-conflict on the Bull
job id, the dispatcher contract), on conflict getJob again.  Callers
interleave arbitrarily; each external call is one atomic step.  The
shared dispatcher state holds the active job for the key, a fresh-id
counter, and a count of jobs actually created (each created job is
executed by the processor exactly once, so `createdCount` counts
handler invocations).  The model covers the window in which the job
has not yet completed and been removed (`removeOnComplete`), which is
what "N concurrent calls" means here.
-/

/-- Where one caller stands in the miss path of `cacheFirst`. -/
inductive CallerPhase where
  | start : CallerPhase
  | tryAdd : CallerPhase
  | retryGet : CallerPhase
  | done : Nat → CallerPhase
  | failed : CallerPhase
deriving DecidableEq, Repr

/-- Shared dispatcher state for one cache key. -/
structure DState where
  /-- the active Bull job for this key, if any. -/
  job : Option Nat
  /-- fresh job-identity counter. -/
  nextId : Nat
  /-- how many jobs were created (= handler invocations). -/
  createdCount : Nat
deriving DecidableEq, Repr

/-- One atomic external call by one caller, mirroring lines 108-121 of
cache-first.service.ts against an atomic add-by-job-id dispatcher. -/
def callerStep (s : DState) (c : CallerPhase) : DState × CallerPhase :=
  match c with
  | .start =>
    match s.job with
    | some j => (s, .done j)
    | none => (s, .tryAdd)
  | .tryAdd =>
    match s.job with
    | some _ => (s, .retryGet)
    | none => (⟨some s.nextId, s.nextId + 1, s.createdCount + 1⟩, .done s.nextId)
  | .retryGet =>
    match s.job with
    | some j => (s, .done j)
    | none => (s, .failed)
  | .done j => (s, .done j)
  | .failed => (s, .failed)

/-- Let caller `i` take one step (out-of-range indices are no-ops). -/
def sysStep (st : DState × List CallerPhase) (i : Nat) :
    DState × List CallerPhase :=
  match st.2[i]? with
  | none => st
  | some c =>
    let p := callerStep st.1 c
    (p.1, st.2.set i p.2)

/-- Run an arbitrary interleaving (a list of caller indices). -/
def runSched (st : DState × List CallerPhase) :
    List Nat → DState × List CallerPhase
  | [] => st
  | i :: rest => runSched (sysStep st i) rest

/-- `n` callers racing into the miss path, no job yet. -/
def initSys (n : Nat) : DState × List CallerPhase :=
  (⟨none, 0, 0⟩, List.replicate n CallerPhase.start)

/-- The resolve outcome a finished caller observes: all its later steps
(`finished()`, set, return) are a function of the job it awaits. -/
def callerResult (fin : Nat → Except Unit T) : CallerPhase → Option (Except Unit T)
  | .done j => some (fin j)
  | _ => none

/-- Has this caller acquired a job? -/
def isDone : CallerPhase → Bool
  | .done _ => true
  | _ => false

/-- Invariant: either no job exists yet (nothing created, everyone still
before their add), or exactly one job `j` was ever created and every
caller that finished acquisition holds `j`. -/
def Inv (st : DState × List CallerPhase) : Prop :=
  (st.1.job = none ∧ st.1.createdCount = 0 ∧
    ∀ c ∈ st.2, c = CallerPhase.start ∨ c = CallerPhase.tryAdd)
  ∨ (∃ j, st.1.job = some j ∧ st.1.createdCount = 1 ∧
      ∀ c ∈ st.2, c = CallerPhase.start ∨ c = CallerPhase.tryAdd ∨
        c = CallerPhase.retryGet ∨ c = CallerPhase.done j)

/-- Concrete environment: valid cache hit ("7" parses to 7); every queue
operation would fail if it were reached. -/
def envHit : Env Nat Nat Nat :=
  ⟨Except.ok (some "7"), fun s => if s = "7" then some 7 else none, none,
   fun _ => Except.error (), none, fun _ => Except.error (), fun n => toString n,
   fun _ => Except.ok ()⟩

/-- Concrete environment: the cache driver's `get` rejects; `add` and
`finished` would succeed if they were reached. -/
def envGetFail : Env Nat Nat Nat :=
  ⟨Except.error (), fun _ => none, none, fun _ => Except.ok 1, none,
   fun _ => Except.ok 5, fun n => toString n, fun _ => Except.ok ()⟩

/-- Concrete environment: cache miss, an existing job 7 is found, and
awaiting it fails. -/
def envAwaitFail : Env Nat Nat Nat :=
  ⟨Except.ok none, fun _ => none, some 7, fun _ => Except.error (), none,
   fun _ => Except.error (), fun n => toString n, fun _ => Except.ok ()⟩

/-- Concrete environment: cache miss, no existing job, `add` rejects, and
the retry `getJob` finds job 9, which finishes with `j + 1`. -/
def envAddFail : Env Nat Nat Nat :=
  ⟨Except.ok none, fun _ => none, none, fun _ => Except.error (), some 9,
   fun j => Except.ok (j + 1), fun n => toString n, fun _ => Except.ok ()⟩

/-- Concrete environment: cache miss, existing job 4 finishes with 5, and
the cache write rejects. -/
def envSetFail : Env Nat Nat Nat :=
  ⟨Except.ok none, fun _ => none, some 4, fun _ => Except.error (), none,
   fun _ => Except.ok 5, fun n => toString n, fun _ => Except.error ()⟩

/-- Concrete environment: the cached string "oops" fails to parse; on the
miss path an existing job 2 finishes with 1. -/
def envParseFail : Env Nat Nat Nat :=
  ⟨Except.ok (some "oops"), fun _ => none, some 2, fun _ => Except.error (), none,
   fun _ => Except.ok 1, fun n => toString n, fun _ => Except.ok ()⟩

/-- Concrete environment: `get` returns the empty string; `parse` would
succeed (with 99) if it were ever consulted, yet truthiness routes the
call to the miss path, where existing job 3 finishes with 8. -/
def envEmptyStr : Env Nat Nat Nat :=
  ⟨Except.ok (some ""), fun _ => some 99, some 3, fun _ => Except.error (), none,
   fun _ => Except.ok 8, fun n => toString n, fun _ => Except.ok ()⟩

/-- Concrete environment used for the warm-refresh witness: a valid hit
environment (so the post-delete `cacheFirst` takes the hit path). -/
def envWarm : Env Nat Nat Nat :=
  ⟨Except.ok (some "7"), fun s => if s = "7" then some 7 else none, none,
   fun _ => Except.error (), none, fun _ => Except.error (), fun n => toString n,
   fun _ => Except.ok ()⟩

/-- A registry with no handler registered at all. -/
def emptyReg : Registry Nat Nat := []

theorem inv_sysStep (st : DState × List CallerPhase) (i : Nat)
    (h : Inv st) : Inv (sysStep st i) := by
  obtain ⟨⟨sj, sn, sc⟩, cs⟩ := st
  cases hg : cs[i]? with
  | none => simpa [sysStep, hg] using h
  | some c =>
    have hc : c ∈ cs := List.getElem?_mem hg
    have hstep : sysStep (⟨sj, sn, sc⟩, cs) i =
        ((callerStep ⟨sj, sn, sc⟩ c).1, cs.set i (callerStep ⟨sj, sn, sc⟩ c).2) := by
      simp [sysStep, hg]
    rw [hstep]
    rcases h with ⟨hj, hcnt, hall⟩ | ⟨j, hj, hcnt, hall⟩
    · have hj' : sj = none := hj
      have hcnt' : sc = 0 := hcnt
      subst hj'; subst hcnt'
      rcases hall c hc with rfl | rfl
      · -- caller at .start, no job: moves to .tryAdd
        refine Or.inl ⟨rfl, rfl, ?_⟩
        intro c' hc'
        rcases List.mem_or_eq_of_mem_set hc' with h' | rfl
        · exact hall c' h'
        · exact Or.inr rfl
      · -- caller at .tryAdd, no job: creates the one job
        refine Or.inr ⟨sn, rfl, rfl, ?_⟩
        intro c' hc'
        rcases List.mem_or_eq_of_mem_set hc' with h' | rfl
        · rcases hall c' h' with rfl | rfl
          · exact Or.inl rfl
          · exact Or.inr (Or.inl rfl)
        · exact Or.inr (Or.inr (Or.inr rfl))
    · -- a single job j already exists: it never changes
      have hj' : sj = some j := hj
      have hcnt' : sc = 1 := hcnt
      subst hj'; subst hcnt'
      rcases hall c hc with rfl | rfl | rfl | rfl
      · refine Or.inr ⟨j, rfl, rfl, ?_⟩
        intro c' hc'
        rcases List.mem_or_eq_of_mem_set hc' with h' | rfl
        · exact hall c' h'
        · exact Or.inr (Or.inr (Or.inr rfl))
      · refine Or.inr ⟨j, rfl, rfl, ?_⟩
        intro c' hc'
        rcases List.mem_or_eq_of_mem_set hc' with h' | rfl
        · exact hall c' h'
        · exact Or.inr (Or.inr (Or.inl rfl))
      · refine Or.inr ⟨j, rfl, rfl, ?_⟩
        intro c' hc'
        rcases List.mem_or_eq_of_mem_set hc' with h' | rfl
        · exact hall c' h'
        · exact Or.inr (Or.inr (Or.inr rfl))
      · refine Or.inr ⟨j, rfl, rfl, ?_⟩
        intro c' hc'
        rcases List.mem_or_eq_of_mem_set hc' with h' | rfl
        · exact hall c' h'
        · exact Or.inr (Or.inr (Or.inr rfl))

theorem inv_runSched (sched : List Nat) (st : DState × List CallerPhase)
    (h : Inv st) : Inv (runSched st sched) := by
  induction sched generalizing st with
  | nil => exact h
  | cons i rest ih => exact ih _ (inv_sysStep st i h)

theorem length_runSched (sched : List Nat) (st : DState × List CallerPhase) :
    (runSched st sched).2.length = st.2.length := by
  induction sched generalizing st with
  | nil => rfl
  | cons i rest ih =>
    rw [runSched, ih]
    obtain ⟨s, cs⟩ := st
    cases hg : cs[i]? <;> simp [sysStep, hg]

/-- Claim C1: for every cache key, when N concurrent `cacheFirst` calls all
observe a cache miss for that key, exactly one job is created — hence
exactly one handler invocation — and every caller that completes holds the
same job, so all N calls receive that job's one outcome (the same result
or the same error).  Quantified over every interleaving `sched` of the
callers' dispatcher operations. -/
theorem single_flight_single_invocation (n : Nat) (sched : List Nat)
    (T : Type) (fin : Nat → Except Unit T) (hn : 0 < n)
    (hdone : ∀ c ∈ (runSched (initSys n) sched).2, isDone c = true) :
    (runSched (initSys n) sched).1.createdCount = 1 ∧
    (∃ j, ∀ c ∈ (runSched (initSys n) sched).2, c = CallerPhase.done j) ∧
    (∃ r, ∀ c ∈ (runSched (initSys n) sched).2, callerResult fin c = some r) := by
  have hinv : Inv (runSched (initSys n) sched) := by
    apply inv_runSched
    refine Or.inl ⟨rfl, rfl, ?_⟩
    intro c hc
    exact Or.inl (List.eq_of_mem_replicate hc)
  have hlen : (runSched (initSys n) sched).2.length = n := by
    rw [length_runSched]; simp [initSys]
  rcases hinv with ⟨hj, hcnt, hall⟩ | ⟨j, hj, hcnt, hall⟩
  · -- impossible: a caller exists and is done, yet all are start/tryAdd
    have hne : (runSched (initSys n) sched).2 ≠ [] := by
      intro hnil
      rw [hnil] at hlen
      simp at hlen
      omega
    obtain ⟨c, hc⟩ := List.exists_mem_of_ne_nil _ hne
    have hd := hdone c hc
    rcases hall c hc with rfl | rfl <;> simp [isDone] at hd
  · have hallj : ∀ c ∈ (runSched (initSys n) sched).2, c = CallerPhase.done j := by
      intro c hc
      have hd := hdone c hc
      rcases hall c hc with rfl | rfl | rfl | rfl
      · exact absurd hd (by simp [isDone])
      · exact absurd hd (by simp [isDone])
      · exact absurd hd (by simp [isDone])
      · rfl
    exact ⟨hcnt, ⟨j, hallj⟩,
      ⟨fin j, fun c hc => by rw [hallj c hc]; rfl⟩⟩

theorem single_flight_single_invocation_witness :
    (runSched (initSys 2) [0, 1, 0, 1, 1]).1.createdCount = 1 ∧
    (∃ j, ∀ c ∈ (runSched (initSys 2) [0, 1, 0, 1, 1]).2,
        c = CallerPhase.done j) ∧
    (∃ r, ∀ c ∈ (runSched (initSys 2) [0, 1, 0, 1, 1]).2,
        callerResult (fun k => Except.ok k) c = some r) :=
  single_flight_single_invocation 2 [0, 1, 0, 1, 1] Nat (fun k => Except.ok k)
    (by decide) (by decide)

theorem acquire_calls (env : Env T P J) (payload : CacheJobPayload P) :
    (acquire env payload).2.1 = 1 ∨ (acquire env payload).2.1 = 2 := by
  cases hg : env.getJob with
  | some j => simp [acquire, hg]
  | none =>
    cases ha : env.add payload with
    | ok j => simp [acquire, hg, ha]
    | error e =>
      cases hr : env.getJobRetry with
      | some j => simp [acquire, hg, ha, hr]
      | none => simp [acquire, hg, ha, hr]

theorem miss_ge_one_getJob (env : Env T P J) (cacheKey : String)
    (redisTTL jobTTL : Nat) (jobType : String) (params : P)
    (hmiss : cacheLookup env = Except.ok none) :
    1 ≤ (cacheFirst env cacheKey redisTTL jobTTL jobType params).2.getJobCalls := by
  rcases hq : acquire env ⟨jobType, params, cacheKey⟩ with ⟨res, gjc, ac⟩
  have h12 := acquire_calls env ⟨jobType, params, cacheKey⟩
  rw [hq] at h12
  have h12' : gjc = 1 ∨ gjc = 2 := h12
  cases res with
  | error e =>
    have hgjc : (cacheFirst env cacheKey redisTTL jobTTL jobType params).2.getJobCalls
        = gjc := by simp [cacheFirst, hmiss, hq]
    rw [hgjc]
    rcases h12' with h | h <;> omega
  | ok j =>
    cases hf : env.finished j with
    | error e =>
      have hgjc : (cacheFirst env cacheKey redisTTL jobTTL jobType params).2.getJobCalls
          = gjc := by simp [cacheFirst, hmiss, hq, hf]
      rw [hgjc]
      rcases h12' with h | h <;> omega
    | ok r =>
      have hgjc : (cacheFirst env cacheKey redisTTL jobTTL jobType params).2.getJobCalls
          = gjc := by simp [cacheFirst, hmiss, hq, hf]
      rw [hgjc]
      rcases h12' with h | h <;> omega

theorem cacheFirst_miss_congr (env : Env T P J) (g : Except Unit (Option String))
    (cacheKey : String) (redisTTL jobTTL : Nat) (jobType : String) (params : P)
    (hmiss : cacheLookup env = Except.ok none)
    (hmiss2 : cacheLookup (withGetResult env g) = Except.ok none) :
    cacheFirst env cacheKey redisTTL jobTTL jobType params =
      cacheFirst (withGetResult env g) cacheKey redisTTL jobTTL jobType params := by
  simp only [cacheFirst, hmiss, hmiss2]
  rfl

/-- Claim C2: when `get(cacheKey)` returns a value that deserializes
successfully, `cacheFirst` returns the deserialized value and performs no
`getJob`, no `add` and no `set` — the cache hit short-circuits dispatch. -/
theorem cache_hit_fast_path (env : Env T P J) (cacheKey : String)
    (redisTTL jobTTL : Nat) (jobType : String) (params : P) (s : String) (v : T)
    (hget : env.getResult = Except.ok (some s)) (hne : s ≠ "")
    (hparse : env.parse s = some v) :
    cacheFirst env cacheKey redisTTL jobTTL jobType params =
      (Except.ok v, ⟨true, 0, none, none, none, none⟩) := by
  have hl : cacheLookup env = Except.ok (some v) := by
    simp [cacheLookup, hget, truthy, hne, hparse]
  simp [cacheFirst, hl]

theorem cache_hit_fast_path_witness :
    cacheFirst envHit "k" 60 5000 "t" 0 =
      (Except.ok 7, ⟨true, 0, none, none, none, none⟩) :=
  cache_hit_fast_path envHit "k" 60 5000 "t" 0 "7" 7 rfl (by decide) rfl

/-- Claim C4 counterexample: when the cache driver's `get` rejects, the
call fails with the propagated store error and performs no job lookup, no
enqueue and no await — it does not proceed as on a cache miss, contrary
to the claim that a `get` failure degrades to recomputation. -/
theorem get_failure_counterexample :
    cacheFirst envGetFail "k" 60 5000 "t" 0 =
      (Except.error CFError.storeError, ⟨true, 0, none, none, none, none⟩) := rfl

/-- Claim C4 (amended): when `get(cacheKey)` fails with a store error, the
error propagates to the caller (`get` is awaited outside any try/catch)
and nothing else runs: no `getJob`, no `add`, no await, no `set`. -/
theorem get_failure_propagates (env : Env T P J) (cacheKey : String)
    (redisTTL jobTTL : Nat) (jobType : String) (params : P) (e : Unit)
    (hget : env.getResult = Except.error e) :
    cacheFirst env cacheKey redisTTL jobTTL jobType params =
      (Except.error CFError.storeError, ⟨true, 0, none, none, none, none⟩) := by
  have hl : cacheLookup env = Except.error e := by simp [cacheLookup, hget]
  simp [cacheFirst, hl]

theorem get_failure_propagates_witness :
    cacheFirst envGetFail "k2" 30 1000 "t" 0 =
      (Except.error CFError.storeError, ⟨true, 0, none, none, none, none⟩) :=
  get_failure_propagates envGetFail "k2" 30 1000 "t" 0 () rfl

/-- Claim C5: when the wait-for-completion step fails (the job errors or
exceeds its Bull timeout), the call fails with the
``Job timed out after jobTTL ms`` error and `cacheDriver.set` is never
invoked. -/
theorem finished_failure_no_cache_write (env : Env T P J) (cacheKey : String)
    (redisTTL jobTTL : Nat) (jobType : String) (params : P) (j : J)
    (hmiss : cacheLookup env = Except.ok none)
    (hacq : (acquire env ⟨jobType, params, cacheKey⟩).1 = Except.ok j)
    (e : Unit) (hfin : env.finished j = Except.error e) :
    (cacheFirst env cacheKey redisTTL jobTTL jobType params).1 =
      Except.error (CFError.jobTimedOut jobTTL) ∧
    (cacheFirst env cacheKey redisTTL jobTTL jobType params).2.awaitedJob = some j ∧
    (cacheFirst env cacheKey redisTTL jobTTL jobType params).2.setArg = none ∧
    (cacheFirst env cacheKey redisTTL jobTTL jobType params).2.setOutcome = none := by
  rcases hq : acquire env ⟨jobType, params, cacheKey⟩ with ⟨res, gjc, ac⟩
  rw [hq] at hacq
  have hres : res = Except.ok j := hacq
  subst hres
  refine ⟨?_, ?_, ?_, ?_⟩ <;> simp [cacheFirst, hmiss, hq, hfin]

theorem finished_failure_no_cache_write_witness :
    (cacheFirst envAwaitFail "k" 60 5000 "t" 0).1 =
      Except.error (CFError.jobTimedOut 5000) ∧
    (cacheFirst envAwaitFail "k" 60 5000 "t" 0).2.awaitedJob = some 7 ∧
    (cacheFirst envAwaitFail "k" 60 5000 "t" 0).2.setArg = none ∧
    (cacheFirst envAwaitFail "k" 60 5000 "t" 0).2.setOutcome = none :=
  finished_failure_no_cache_write envAwaitFail "k" 60 5000 "t" 0 7 rfl rfl () rfl

/-- Claim C6: on a cache miss where `add` rejects, `cacheFirst` retries
`getJob`: if an existing job is found it is used and awaited (its success
or failure determines the call's outcome); if none is found the call
fails with the `Failed to schedule cache job` error. -/
theorem add_failure_recovery (env : Env T P J) (cacheKey : String)
    (redisTTL jobTTL : Nat) (jobType : String) (params : P) (e : Unit)
    (hmiss : cacheLookup env = Except.ok none)
    (hgj : env.getJob = none)
    (hadd : env.add ⟨jobType, params, cacheKey⟩ = Except.error e) :
    (env.getJobRetry = none →
      cacheFirst env cacheKey redisTTL jobTTL jobType params =
        (Except.error CFError.failedToSchedule,
         ⟨true, 2, some ⟨jobType, params, cacheKey⟩, none, none, none⟩)) ∧
    (∀ j, env.getJobRetry = some j →
      (cacheFirst env cacheKey redisTTL jobTTL jobType params).2.awaitedJob =
        some j ∧
      (∀ r, env.finished j = Except.ok r →
        (cacheFirst env cacheKey redisTTL jobTTL jobType params).1 =
          Except.ok r) ∧
      (∀ e2 : Unit, env.finished j = Except.error e2 →
        (cacheFirst env cacheKey redisTTL jobTTL jobType params).1 =
          Except.error (CFError.jobTimedOut jobTTL))) := by
  constructor
  · intro hr
    have hq : acquire env ⟨jobType, params, cacheKey⟩ =
        (Except.error CFError.failedToSchedule, 2, true) := by
      simp [acquire, hgj, hadd, hr]
    simp [cacheFirst, hmiss, hq]
  · intro j hr
    have hq : acquire env ⟨jobType, params, cacheKey⟩ =
        (Except.ok j, 2, true) := by
      simp [acquire, hgj, hadd, hr]
    refine ⟨?_, ?_, ?_⟩
    · cases hf : env.finished j <;> simp [cacheFirst, hmiss, hq, hf]
    · intro r hr2
      simp [cacheFirst, hmiss, hq, hr2]
    · intro e2 hr2
      simp [cacheFirst, hmiss, hq, hr2]

theorem add_failure_recovery_witness :
    (cacheFirst envAddFail "k" 60 5000 "t" 0).2.awaitedJob = some 9 ∧
    (cacheFirst envAddFail "k" 60 5000 "t" 0).1 = Except.ok 10 := by
  have h := add_failure_recovery envAddFail "k" 60 5000 "t" 0 () rfl rfl rfl
  have h2 := h.2 9 rfl
  exact ⟨h2.1, h2.2.1 10 rfl⟩

/-- Claim C7: when the computation succeeds but the cache write rejects,
the call still returns the computed result: the `set` failure is caught
(and logged), never surfaced to the caller. -/
theorem set_failure_swallowed (env : Env T P J) (cacheKey : String)
    (redisTTL jobTTL : Nat) (jobType : String) (params : P) (j : J) (r : T)
    (e : Unit)
    (hmiss : cacheLookup env = Except.ok none)
    (hacq : (acquire env ⟨jobType, params, cacheKey⟩).1 = Except.ok j)
    (hfin : env.finished j = Except.ok r)
    (hset : env.setResult (env.serialize r) = Except.error e) :
    (cacheFirst env cacheKey redisTTL jobTTL jobType params).1 = Except.ok r ∧
    (cacheFirst env cacheKey redisTTL jobTTL jobType params).2.setArg =
      some (env.serialize r, redisTTL) ∧
    (cacheFirst env cacheKey redisTTL jobTTL jobType params).2.setOutcome =
      some (Except.error e) := by
  rcases hq : acquire env ⟨jobType, params, cacheKey⟩ with ⟨res, gjc, ac⟩
  rw [hq] at hacq
  have hres : res = Except.ok j := hacq
  subst hres
  refine ⟨?_, ?_, ?_⟩ <;> simp [cacheFirst, hmiss, hq, hfin, hset]

theorem set_failure_swallowed_witness :
    (cacheFirst envSetFail "k" 60 5000 "t" 0).1 = Except.ok 5 ∧
    (cacheFirst envSetFail "k" 60 5000 "t" 0).2.setArg =
      some (envSetFail.serialize 5, 60) ∧
    (cacheFirst envSetFail "k" 60 5000 "t" 0).2.setOutcome =
      some (Except.error ()) :=
  set_failure_swallowed envSetFail "k" 60 5000 "t" 0 4 5 () rfl rfl rfl rfl

/-- Claim C8: when the cached value is present and non-empty but fails to
deserialize, `cacheFirst` does not raise: it behaves exactly as if `get`
had returned nothing (the miss path, which consults the dispatcher). -/
theorem parse_failure_as_miss (env : Env T P J) (cacheKey : String)
    (redisTTL jobTTL : Nat) (jobType : String) (params : P) (s : String)
    (hget : env.getResult = Except.ok (some s)) (hne : s ≠ "")
    (hparse : env.parse s = none) :
    cacheFirst env cacheKey redisTTL jobTTL jobType params =
      cacheFirst (withGetResult env (Except.ok none))
        cacheKey redisTTL jobTTL jobType params ∧
    1 ≤ (cacheFirst env cacheKey redisTTL jobTTL jobType params).2.getJobCalls := by
  have hl : cacheLookup env = Except.ok none := by
    simp [cacheLookup, hget, truthy, hne, hparse]
  have hl2 : cacheLookup (withGetResult env (Except.ok none)) = Except.ok none := by
    simp [cacheLookup, withGetResult, truthy]
  exact ⟨cacheFirst_miss_congr env (Except.ok none) cacheKey redisTTL jobTTL
      jobType params hl hl2,
    miss_ge_one_getJob env cacheKey redisTTL jobTTL jobType params hl⟩

theorem parse_failure_as_miss_witness :
    cacheFirst envParseFail "k" 60 5000 "t" 0 =
      cacheFirst (withGetResult envParseFail (Except.ok none)) "k" 60 5000 "t" 0 ∧
    1 ≤ (cacheFirst envParseFail "k" 60 5000 "t" 0).2.getJobCalls :=
  parse_failure_as_miss envParseFail "k" 60 5000 "t" 0 "oops" rfl (by decide) rfl

/-- Claim C10: when `get` returns the empty string, the truthiness test
`if (cached)` routes the call to the miss path — it behaves exactly as if
`get` had returned nothing, dispatching a job, even though a value is
present and `JSON.parse` is never consulted. -/
theorem empty_string_as_miss (env : Env T P J) (cacheKey : String)
    (redisTTL jobTTL : Nat) (jobType : String) (params : P)
    (hget : env.getResult = Except.ok (some "")) :
    cacheFirst env cacheKey redisTTL jobTTL jobType params =
      cacheFirst (withGetResult env (Except.ok none))
        cacheKey redisTTL jobTTL jobType params ∧
    1 ≤ (cacheFirst env cacheKey redisTTL jobTTL jobType params).2.getJobCalls := by
  have hl : cacheLookup env = Except.ok none := by
    simp [cacheLookup, hget, truthy]
  have hl2 : cacheLookup (withGetResult env (Except.ok none)) = Except.ok none := by
    simp [cacheLookup, withGetResult, truthy]
  exact ⟨cacheFirst_miss_congr env (Except.ok none) cacheKey redisTTL jobTTL
      jobType params hl hl2,
    miss_ge_one_getJob env cacheKey redisTTL jobTTL jobType params hl⟩

theorem empty_string_as_miss_witness :
    cacheFirst envEmptyStr "k" 60 5000 "t" 0 =
      cacheFirst (withGetResult envEmptyStr (Except.ok none)) "k" 60 5000 "t" 0 ∧
    1 ≤ (cacheFirst envEmptyStr "k" 60 5000 "t" 0).2.getJobCalls :=
  empty_string_as_miss envEmptyStr "k" 60 5000 "t" 0 rfl

/-- Claim C9: `warmCacheForKey` first awaits `del(cacheKey)` and then runs
`cacheFirst` with exactly the same arguments; when the deletion rejects,
that store error propagates to the caller and the resolve protocol never
starts (not even the cache read happens). -/
theorem warm_refresh_protocol (env : Env T P J) (delRes : Except Unit Unit)
    (cacheKey : String) (redisTTL jobTTL : Nat) (jobType : String) (params : P) :
    (∀ e : Unit, delRes = Except.error e →
      warmCacheForKey delRes env cacheKey redisTTL jobTTL jobType params =
        (Except.error CFError.storeError, true,
         ⟨false, 0, none, none, none, none⟩)) ∧
    (delRes = Except.ok () →
      warmCacheForKey delRes env cacheKey redisTTL jobTTL jobType params =
        ((cacheFirst env cacheKey redisTTL jobTTL jobType params).1, true,
         (cacheFirst env cacheKey redisTTL jobTTL jobType params).2)) := by
  constructor
  · intro e he
    simp [warmCacheForKey, he]
  · intro he
    simp [warmCacheForKey, he]

theorem warm_refresh_protocol_witness :
    warmCacheForKey (Except.error ()) envWarm "k" 60 5000 "t" 0 =
      (Except.error CFError.storeError, true,
       ⟨false, 0, none, none, none, none⟩) ∧
    warmCacheForKey (Except.ok ()) envWarm "k" 60 5000 "t" 0 =
      ((cacheFirst envWarm "k" 60 5000 "t" 0).1, true,
       (cacheFirst envWarm "k" 60 5000 "t" 0).2) :=
  ⟨(warm_refresh_protocol envWarm (Except.error ()) "k" 60 5000 "t" 0).1 () rfl,
   (warm_refresh_protocol envWarm (Except.ok ()) "k" 60 5000 "t" 0).2 rfl⟩

/-- Claim C3 counterexample: resolving a type with no registered handler
on a miss cache fails with the ``Job timed out after 5000 ms`` exception:
the error surfaced to the caller IS the timeout-shaped error, refuting
the claim that the failure reaches the caller as a computation failure
distinct from a timeout (there is no UnregisteredHandlerError at the
`cacheFirst` surface — the catch around `finished()` folds every job
failure into the timeout exception). -/
theorem unregistered_counterexample :
    (cacheFirst (processorEnv emptyReg (Except.ok none) (fun _ => none)
        (fun _ => "") (fun _ => Except.ok ()))
      "user:42" 3600 5000 "fetchUser" 0).1 =
      Except.error (CFError.jobTimedOut 5000) := rfl

/-- Claim C3 (amended): on a cache miss with an unregistered job type, the
processor fails the job with the `No handler registered for job type`
error and no cache write is performed, but `cacheFirst` surfaces the
failure to its caller as the generic ``Job timed out after jobTTL ms``
exception rather than a distinct unregistered-handler error. -/
theorem unregistered_type_fails (reg : Registry P T)
    (g : Except Unit (Option String)) (parse' : String → Option T)
    (serialize' : T → String) (setResult' : String → Except Unit Unit)
    (cacheKey : String) (redisTTL jobTTL : Nat) (jobType : String) (params : P)
    (hreg : getHandler reg jobType = none)
    (hmiss : cacheLookup (processorEnv reg g parse' serialize' setResult') =
      Except.ok none) :
    handleCacheFirstJob reg ⟨jobType, params, cacheKey⟩ =
      ProcOutcome.unregistered jobType ∧
    cacheFirst (processorEnv reg g parse' serialize' setResult')
        cacheKey redisTTL jobTTL jobType params =
      (Except.error (CFError.jobTimedOut jobTTL),
       ⟨true, 1, some ⟨jobType, params, cacheKey⟩,
        some ⟨jobType, params, cacheKey⟩, none, none⟩) := by
  have hproc : handleCacheFirstJob reg
      (⟨jobType, params, cacheKey⟩ : CacheJobPayload P) =
      ProcOutcome.unregistered jobType := by
    simp [handleCacheFirstJob, hreg]
  refine ⟨hproc, ?_⟩
  have hq : acquire (processorEnv reg g parse' serialize' setResult')
      (⟨jobType, params, cacheKey⟩ : CacheJobPayload P) =
      (Except.ok ⟨jobType, params, cacheKey⟩, 1, true) := by
    simp [acquire, processorEnv]
  have hfin : (processorEnv reg g parse' serialize' setResult').finished
      ⟨jobType, params, cacheKey⟩ = Except.error () := by
    simp [processorEnv, hproc]
  simp [cacheFirst, hmiss, hq, hfin]

theorem unregistered_type_fails_witness :
    handleCacheFirstJob emptyReg ⟨"fetchUser", 0, "user:42"⟩ =
      ProcOutcome.unregistered "fetchUser" ∧
    cacheFirst (processorEnv emptyReg (Except.ok none) (fun _ => none)
        (fun _ => "") (fun _ => Except.ok ()))
        "user:42" 3600 5000 "fetchUser" 0 =
      (Except.error (CFError.jobTimedOut 5000),
       ⟨true, 1, some ⟨"fetchUser", 0, "user:42"⟩,
        some ⟨"fetchUser", 0, "user:42"⟩, none, none⟩) :=
  unregistered_type_fails emptyReg (Except.ok none) (fun _ => none)
    (fun _ => "") (fun _ => Except.ok ()) "user:42" 3600 5000 "fetchUser" 0
    rfl rfl

end CacheMediator
